import Mathlib

/-!
Shallow embedding of the lead-ingestion web application (`webapp/app.py` of
the telegram-quiz-bot repository): email validation, the `email_leads` table
with its unique-email index, the Systeme.io push client with its retry and
backoff loop, and the `POST /submit-email` handler.

Modelling conventions:
- HTTP attempt outcomes are an explicit environment `net : Nat → AttemptResult`
  giving the result the network would deliver to the k-th attempt (a response
  with status code and body text, or a `requests.RequestException`).
- Sleeps are recorded in tenths of a second, so `time.sleep(0.8 * attempt)`
  becomes a recorded duration `8 * attempt` (exact integers, no floats).
- Timestamps (`datetime.utcnow`) are abstract naturals supplied per request.
- The database is an in-memory list of rows plus the autoincrement counter;
  the insert-or-IntegrityError-reread of the handler is modelled sequentially
  as find-or-create (the unique index makes these coincide).
-/

namespace QuizBot

set_option maxRecDepth 8192

/-- ASCII whitespace recognised by Python's `str.strip` and the regex class
`\s` (space, tab, newline, carriage return, vertical tab, form feed); the
non-ASCII Unicode whitespace characters do not occur in any claim and are
elided. -/
def pyIsSpace (c : Char) : Bool :=
  c == ' ' || c == '\t' || c == '\n' || c == '\r' || c.val == 11 || c.val == 12

/-- Python `str.strip()`: drop leading and trailing whitespace. -/
def pyStrip (s : String) : String :=
  ⟨((s.data.dropWhile pyIsSpace).reverse.dropWhile pyIsSpace).reverse⟩

/-- Python `str.lower()` on one character (ASCII letters; the claims use only
ASCII data). -/
def pyLowerChar (c : Char) : Char :=
  if 'A' ≤ c ∧ c ≤ 'Z' then Char.ofNat (c.toNat + 32) else c

/-- Python `str.lower()`. -/
def pyLower (s : String) : String := ⟨s.data.map pyLowerChar⟩

/-- Characters matched by the regex class `[^@\s]`. -/
def isEmailChar (c : Char) : Bool := c != '@' && !(pyIsSpace c)

/-- The character list matches the anchored pattern
`[^@\s]+@[^@\s]+\.[^@\s]+` in full: it splits as
local ++ "@" ++ d1 ++ "." ++ d2 with the three parts nonempty and made of
non-@, non-whitespace characters.  The existential over the split position is
exactly regex-match semantics (backtracking tries every split). -/
def emailCoreMatch (cs : List Char) : Bool :=
  (List.range cs.length).any fun i =>
    (List.range cs.length).any fun j =>
      cs.getD i ' ' == '@' && cs.getD j ' ' == '.' &&
      decide (0 < i) && decide (i + 1 < j) && decide (j + 1 < cs.length) &&
      (cs.take i).all isEmailChar &&
      ((cs.drop (i + 1)).take (j - (i + 1))).all isEmailChar &&
      (cs.drop (j + 1)).all isEmailChar

/-- EMAIL_RE.match of app.py line 42: `^[^@\s]+@[^@\s]+\.[^@\s]+$`.  Python's
`$` also matches just before a single trailing newline, hence the second
disjunct (irrelevant in the handler, which only matches stripped strings). -/
def EMAIL_RE_match (s : String) : Bool :=
  emailCoreMatch s.data ||
    (s.data.getLast? == some '\n' && emailCoreMatch s.data.dropLast)

/-- JSON values as produced by Flask `request.get_json`. -/
inductive Json where
  | null
  | bool (b : Bool)
  | num (n : Int)
  | str (s : String)
  | arr (elems : List Json)
  | obj (fields : List (String × Json))

/-- Python truthiness of a parsed JSON value (used by `... or {}` on line 180
and by `... or ""` on lines 184-185). -/
def Json.truthy : Json → Bool
  | .null => false
  | .bool b => b
  | .num n => n != 0
  | .str s => s != ""
  | .arr l => !l.isEmpty
  | .obj f => !f.isEmpty

/-- Whether a JSON value is an object (a Python dict, which has `.get`). -/
def Json.isObj : Json → Bool
  | .obj _ => true
  | _ => false

/-- Python `dict.get(k)`: the value of the first binding of `k`, if any. -/
def jget (fields : List (String × Json)) (k : String) : Option Json :=
  (fields.find? (fun kv => kv.1 == k)).map (fun kv => kv.2)

/-- Models `(data.get(k) or "")` followed by the string methods applied to the
result: a missing or falsy value yields `""`, a truthy string yields itself,
and a truthy non-string raises AttributeError when `.strip()` is applied
(modelled as `.error ()`). -/
def getStrOr (fields : List (String × Json)) (k : String) : Except Unit String :=
  match jget fields k with
  | none => .ok ""
  | some v =>
    if v.truthy then
      match v with
      | .str s => .ok s
      | _ => .error ()
    else .ok ""

/-- Outcome the network delivers to one HTTP POST attempt: either a response
with a status code and body text, or a `requests.RequestException` carrying a
message. -/
inductive AttemptResult where
  | response (status : Nat) (text : String)
  | exception (msg : String)
deriving DecidableEq

/-- The tuple returned by `push_to_systemeio`: `(ok, status, err)`. -/
structure PushResult where
  ok : Bool
  status : String
  err : Option String
deriving DecidableEq

/-- A `PushResult` together with the observable side effects of the call: how
many HTTP attempts were actually made, and the sleeps performed, in order, in
tenths of a second. -/
structure PushTrace where
  result : PushResult
  calls : Nat
  sleeps : List Nat
deriving DecidableEq

/-- Status codes treated as successful delivery on line 130: any 2xx, or a
409 conflict. -/
def crmSuccess (c : Nat) : Prop := (200 ≤ c ∧ c < 300) ∨ c = 409

instance (c : Nat) : Decidable (crmSuccess c) := by
  unfold crmSuccess; exact inferInstance

/-- An attempt that does not end the retry loop: a response outside the
success set, or any transport exception. -/
def failedAttempt : AttemptResult → Prop
  | .response c _ => ¬ crmSuccess c
  | .exception _ => True

instance : (r : AttemptResult) → Decidable (failedAttempt r)
  | .response c _ => by unfold failedAttempt; exact inferInstance
  | .exception _ => by unfold failedAttempt; exact inferInstance

/-- Python slicing `s[:n]`: the first n characters. -/
def pyTake (s : String) (n : Nat) : String := ⟨s.data.take n⟩

/-- The `last_error` set on an API failure (line 134): the HTTP code plus the
response body truncated to its first 500 characters, with a `...` suffix. -/
def httpFailDetail (c : Nat) (text : String) : String :=
  "HTTP " ++ toString c ++ ": " ++ pyTake text 500 ++ "..."

/-- The `last_error` value a failed attempt leaves behind: line 134 for an
HTTP response, line 139 (`str(e)`, stored verbatim) for an exception. -/
def attemptFailDetail : AttemptResult → String
  | .response c text => httpFailDetail c text
  | .exception msg => msg

/-- Python `last_error or "unknown_api_error"` (line 144): `last_error` is
replaced by the placeholder when it is `None` or the empty string. -/
def orUnknown : Option String → String
  | none => "unknown_api_error"
  | some s => if s = "" then "unknown_api_error" else s

/-- The retry loop of lines 125-142.  `attempt` is the 1-based attempt number
and `remaining` the number of attempts left out of the fixed total of 3;
`lastError`, `sleeps` and `calls` are the accumulated loop state.  Note the
`time.sleep(0.8 * attempt)` on line 142 sits inside the loop body and so also
runs after the final failed attempt. -/
def pushAttempts (net : Nat → AttemptResult) (attempt remaining : Nat)
    (lastError : Option String) (sleeps : List Nat) (calls : Nat) : PushTrace :=
  match remaining with
  | 0 => ⟨⟨false, "error", some (orUnknown lastError)⟩, calls, sleeps⟩
  | r + 1 =>
    match net attempt with
    | .response c text =>
      if crmSuccess c then
        ⟨⟨true, "HTTP " ++ toString c, none⟩, calls + 1, sleeps⟩
      else
        pushAttempts net (attempt + 1) r (some (httpFailDetail c text))
          (sleeps ++ [8 * attempt]) (calls + 1)
    | .exception msg =>
      pushAttempts net (attempt + 1) r (some msg)
        (sleeps ++ [8 * attempt]) (calls + 1)

/-- push_to_systemeio of lines 108-144.  `token` is SYSTEMEIO_TOKEN and
`tag_id` the tag passed by the handler (SYSTEMEIO_TAG_ID, a string); line 110
skips with no network call when either is falsy (empty). -/
def push_to_systemeio (token : String) (net : Nat → AttemptResult)
    (email : String) (tag_id : String) (profile : Option String) : PushTrace :=
  if token = "" ∨ tag_id = "" then
    ⟨⟨false, "skipped", some "SYSTEMEIO_TOKEN/TAG_ID manquants"⟩, 0, []⟩
  else
    pushAttempts net 1 3 none [] 0

/-- A row of the `email_leads` table (app.py lines 54-67). -/
structure EmailLead where
  id : Nat
  ts_utc : Nat
  email : String
  profile : Option String
  source_ip : String
  user_agent : String
  pushed_to_systemeio : Bool
  systemeio_status : Option String
  systemeio_error : Option String
deriving DecidableEq

/-- The `email_leads` table plus the id autoincrement counter. -/
structure Store where
  leads : List EmailLead
  nextId : Nat
deriving DecidableEq

/-- A freshly created database. -/
def emptyStore : Store := ⟨[], 1⟩

/-- The row with the given email, if any (the `scalar_one` fetch of line
204; under the unique index at most one row matches). -/
def findLead (leads : List EmailLead) (em : String) : Option EmailLead :=
  leads.find? (fun L => L.email == em)

/-- Number of rows holding the given email. -/
def countEmail (leads : List EmailLead) (em : String) : Nat :=
  (leads.filter (fun L => L.email == em)).length

/-- Apply `f` to the row(s) with the given email (unique under the table's
index); models the attribute writes on the fetched row, lines 210-213. -/
def updateLead (leads : List EmailLead) (em : String) (f : EmailLead → EmailLead) :
    List EmailLead :=
  leads.map (fun L => if L.email == em then f L else L)

/-- The three attribute writes of lines 210-212: only the Systeme.io sync
fields are written; id, ts_utc, email, profile, source_ip, user_agent are
not touched. -/
def setSync (r : PushResult) (L : EmailLead) : EmailLead :=
  { L with pushed_to_systemeio := r.ok,
           systemeio_status := some r.status,
           systemeio_error := r.err }

/-- The row constructed on line 194: sync columns start at their defaults
(pushed_to_systemeio False, status and error NULL). -/
def newLead (id now : Nat) (email : String) (profile : Option String)
    (ip ua : String) : EmailLead :=
  ⟨id, now, email, profile, ip, ua, false, none, none⟩

/-- Lines 197-204: insert the fresh row; on IntegrityError (duplicate email
under the unique index) roll back and re-read the existing row.  Sequentially
this is exactly find-or-create. -/
def findOrCreate (st : Store) (email : String) (profile : Option String)
    (ip ua : String) (now : Nat) : Store × EmailLead :=
  match findLead st.leads email with
  | some L => (st, L)
  | none =>
    let L := newLead st.nextId now email profile ip ua
    (⟨st.leads ++ [L], st.nextId + 1⟩, L)

/-- Requester-visible result of `POST /submit-email`: `abort(400, desc)` for
unparseable JSON, a `{ok: false, error: code}` 400 for validation failures,
`{ok: true}` on acceptance, or an uncaught exception (HTTP 500). -/
inductive Response where
  | badRequest (description : String)
  | jsonErr (error : String)
  | okTrue
  | internalError
deriving DecidableEq

/-- Result of one handler invocation: the response, the database afterwards,
and how many CRM network calls were made while serving it. -/
structure SubmitOutcome where
  response : Response
  store : Store
  crmCalls : Nat
deriving DecidableEq

/-- Environment-derived configuration the handler reads: SYSTEMEIO_TOKEN and
SYSTEMEIO_TAG_ID. -/
structure Config where
  token : String
  tag_id : String

/-- Line 185: `(data.get("profile") or "").strip() or None`, applied to the
extracted raw profile string. -/
def normProfile (p : String) : Option String :=
  if pyStrip p = "" then none else some (pyStrip p)

/-- The `POST /submit-email` handler, lines 176-219.  `body` is `none` when
`request.get_json(force=True, silent=False)` raises (unparseable payload,
line 182), otherwise the parsed JSON value.  `ua` and `ip` are the request
metadata of lines 186-187.  The storage layer always succeeds in this model
(the claims under study condition on the storage step succeeding). -/
def submit_email (cfg : Config) (net : Nat → AttemptResult) (st : Store)
    (body : Option Json) (ua ip : String) (now : Nat) : SubmitOutcome :=
  match body with
  | none => ⟨.badRequest "invalid_json", st, 0⟩
  | some j =>
    match (if j.truthy then j else Json.obj []) with
    | Json.obj fields =>
      match getStrOr fields "email" with
      | .error _ => ⟨.internalError, st, 0⟩
      | .ok rawEmail =>
        match getStrOr fields "profile" with
        | .error _ => ⟨.internalError, st, 0⟩
        | .ok rawProfile =>
          let email := pyLower (pyStrip rawEmail)
          let profile := normProfile rawProfile
          if email = "" then ⟨.jsonErr "email_required", st, 0⟩
          else if EMAIL_RE_match email = true then
            let fc := findOrCreate st email profile ip ua now
            let tr := push_to_systemeio cfg.token net email cfg.tag_id profile
            ⟨.okTrue,
             ⟨updateLead fc.1.leads email (setSync tr.result), fc.1.nextId⟩,
             tr.calls⟩
          else ⟨.jsonErr "email_invalid", st, 0⟩
    | _ => ⟨.internalError, st, 0⟩

/-- One inbound submission: its configuration snapshot, network behaviour,
parsed body (or parse failure), and request metadata. -/
structure Submission where
  cfg : Config
  net : Nat → AttemptResult
  body : Option Json
  ua : String
  ip : String
  now : Nat

/-- Run a sequence of submissions against a store, keeping the stores. -/
def runSubmits (st : Store) (subs : List Submission) : Store :=
  subs.foldl
    (fun s sub => (submit_email sub.cfg sub.net s sub.body sub.ua sub.ip sub.now).store) st

/-- JSON body `{email: e, profile: p}` with both fields present as strings. -/
def mkBody (e p : String) : Option Json :=
  some (Json.obj [("email", Json.str e), ("profile", Json.str p)])

/-! Helper lemmas about the push client. -/

theorem pushAttempts_zero (net : Nat → AttemptResult) (a : Nat) (le : Option String)
    (sl : List Nat) (k : Nat) :
    pushAttempts net a 0 le sl k = ⟨⟨false, "error", some (orUnknown le)⟩, k, sl⟩ := rfl

theorem pushAttempts_success (net : Nat → AttemptResult) (a r : Nat) (le : Option String)
    (sl : List Nat) (k c : Nat) (t : String)
    (h : net a = AttemptResult.response c t) (hc : crmSuccess c) :
    pushAttempts net a (r + 1) le sl k = ⟨⟨true, "HTTP " ++ toString c, none⟩, k + 1, sl⟩ := by
  simp only [pushAttempts, h]
  rw [if_pos hc]

theorem pushAttempts_fail (net : Nat → AttemptResult) (a r : Nat) (le : Option String)
    (sl : List Nat) (k : Nat) (h : failedAttempt (net a)) :
    pushAttempts net a (r + 1) le sl k =
      pushAttempts net (a + 1) r (some (attemptFailDetail (net a)))
        (sl ++ [8 * a]) (k + 1) := by
  rcases hn : net a with ⟨c, t⟩ | m
  · rw [hn] at h
    simp only [failedAttempt] at h
    simp only [pushAttempts, hn, attemptFailDetail]
    rw [if_neg h]
  · simp only [pushAttempts, hn, attemptFailDetail]

theorem push_run (token tag e : String) (net : Nat → AttemptResult) (p : Option String)
    (hTok : token ≠ "") (hTag : tag ≠ "") :
    push_to_systemeio token net e tag p = pushAttempts net 1 3 none [] 0 := by
  unfold push_to_systemeio
  rw [if_neg (fun h => h.elim hTok hTag)]

theorem push_skippedEq (token tag e : String) (net : Nat → AttemptResult) (p : Option String)
    (h : token = "" ∨ tag = "") :
    push_to_systemeio token net e tag p =
      ⟨⟨false, "skipped", some "SYSTEMEIO_TOKEN/TAG_ID manquants"⟩, 0, []⟩ := by
  unfold push_to_systemeio
  rw [if_pos h]

theorem push_trace_first (token tag e : String) (net : Nat → AttemptResult) (p : Option String)
    (hTok : token ≠ "") (hTag : tag ≠ "") (c : Nat) (t : String)
    (h1 : net 1 = AttemptResult.response c t) (hc : crmSuccess c) :
    push_to_systemeio token net e tag p = ⟨⟨true, "HTTP " ++ toString c, none⟩, 1, []⟩ := by
  rw [push_run token tag e net p hTok hTag]
  show pushAttempts net 1 (2 + 1) none [] 0 = _
  rw [pushAttempts_success net 1 2 none [] 0 c t h1 hc]

theorem push_trace_second (token tag e : String) (net : Nat → AttemptResult) (p : Option String)
    (hTok : token ≠ "") (hTag : tag ≠ "") (c : Nat) (t : String)
    (h1 : failedAttempt (net 1)) (h2 : net 2 = AttemptResult.response c t) (hc : crmSuccess c) :
    push_to_systemeio token net e tag p = ⟨⟨true, "HTTP " ++ toString c, none⟩, 2, [8]⟩ := by
  rw [push_run token tag e net p hTok hTag]
  show pushAttempts net 1 (2 + 1) none [] 0 = _
  rw [pushAttempts_fail net 1 2 none [] 0 h1]
  norm_num
  show pushAttempts net 2 (1 + 1) (some (attemptFailDetail (net 1))) [8] 1 = _
  rw [pushAttempts_success net 2 1 (some (attemptFailDetail (net 1))) [8] 1 c t h2 hc]

theorem push_trace_third (token tag e : String) (net : Nat → AttemptResult) (p : Option String)
    (hTok : token ≠ "") (hTag : tag ≠ "") (c : Nat) (t : String)
    (h1 : failedAttempt (net 1)) (h2 : failedAttempt (net 2))
    (h3 : net 3 = AttemptResult.response c t) (hc : crmSuccess c) :
    push_to_systemeio token net e tag p =
      ⟨⟨true, "HTTP " ++ toString c, none⟩, 3, [8, 16]⟩ := by
  rw [push_run token tag e net p hTok hTag]
  show pushAttempts net 1 (2 + 1) none [] 0 = _
  rw [pushAttempts_fail net 1 2 none [] 0 h1]
  norm_num
  show pushAttempts net 2 (1 + 1) (some (attemptFailDetail (net 1))) [8] 1 = _
  rw [pushAttempts_fail net 2 1 (some (attemptFailDetail (net 1))) [8] 1 h2]
  norm_num
  show pushAttempts net 3 (0 + 1) (some (attemptFailDetail (net 2))) [8, 16] 2 = _
  rw [pushAttempts_success net 3 0 (some (attemptFailDetail (net 2))) [8, 16] 2 c t h3 hc]

theorem push_trace_allfail (token tag e : String) (net : Nat → AttemptResult) (p : Option String)
    (hTok : token ≠ "") (hTag : tag ≠ "")
    (h1 : failedAttempt (net 1)) (h2 : failedAttempt (net 2)) (h3 : failedAttempt (net 3)) :
    push_to_systemeio token net e tag p =
      ⟨⟨false, "error", some (orUnknown (some (attemptFailDetail (net 3))))⟩,
       3, [8, 16, 24]⟩ := by
  rw [push_run token tag e net p hTok hTag]
  show pushAttempts net 1 (2 + 1) none [] 0 = _
  rw [pushAttempts_fail net 1 2 none [] 0 h1]
  norm_num
  show pushAttempts net 2 (1 + 1) (some (attemptFailDetail (net 1))) [8] 1 = _
  rw [pushAttempts_fail net 2 1 (some (attemptFailDetail (net 1))) [8] 1 h2]
  norm_num
  show pushAttempts net 3 (0 + 1) (some (attemptFailDetail (net 2))) [8, 16] 2 = _
  rw [pushAttempts_fail net 3 0 (some (attemptFailDetail (net 2))) [8, 16] 2 h3]
  norm_num
  exact pushAttempts_zero net 4 (some (attemptFailDetail (net 3))) [8, 16, 24] 3

theorem pushAttempts_ok_shape (net : Nat → AttemptResult) (r : Nat) :
    ∀ a le sl k, (pushAttempts net a r le sl k).result.ok = true →
      ∃ c : Nat, (pushAttempts net a r le sl k).result.status = "HTTP " ++ toString c ∧
        (pushAttempts net a r le sl k).result.err = none := by
  induction r with
  | zero => intro a le sl k h; simp [pushAttempts_zero] at h
  | succ r ih =>
    intro a le sl k h
    rcases hn : net a with ⟨c, t⟩ | m
    · by_cases hc : crmSuccess c
      · rw [pushAttempts_success net a r le sl k c t hn hc]
        exact ⟨c, rfl, rfl⟩
      · have hf : failedAttempt (net a) := by rw [hn]; exact hc
        rw [pushAttempts_fail net a r le sl k hf] at h ⊢
        exact ih _ _ _ _ h
    · have hf : failedAttempt (net a) := by rw [hn]; trivial
      rw [pushAttempts_fail net a r le sl k hf] at h ⊢
      exact ih _ _ _ _ h

theorem push_ok_shape (token tag e : String) (net : Nat → AttemptResult) (p : Option String)
    (h : (push_to_systemeio token net e tag p).result.ok = true) :
    ∃ c : Nat, (push_to_systemeio token net e tag p).result.status = "HTTP " ++ toString c ∧
      (push_to_systemeio token net e tag p).result.err = none := by
  by_cases hs : token = "" ∨ tag = ""
  · rw [push_skippedEq token tag e net p hs] at h
    simp at h
  · push_neg at hs
    rw [push_run token tag e net p hs.1 hs.2] at h ⊢
    exact pushAttempts_ok_shape net 3 1 none [] 0 h

/-! Helper lemmas about the store. -/

theorem setSync_email (r : PushResult) (L : EmailLead) : (setSync r L).email = L.email := rfl

theorem findLead_updateLead (l : List EmailLead) (em : String) (f : EmailLead → EmailLead)
    (hf : ∀ L, (f L).email = L.email) :
    findLead (updateLead l em f) em = (findLead l em).map f := by
  induction l with
  | nil => rfl
  | cons hd tl ih =>
    unfold findLead updateLead at ih ⊢
    simp only [List.map_cons]
    by_cases h : (hd.email == em) = true
    · rw [if_pos h]
      simp only [List.find?_cons, hf hd]
      rw [h]
      rfl
    · rw [if_neg h]
      simp only [Bool.not_eq_true] at h
      simp only [List.find?_cons]
      rw [h]
      exact ih

theorem countEmail_map_email_eq (l : List EmailLead) (g : EmailLead → EmailLead) (em : String)
    (hg : ∀ L, (g L).email = L.email) :
    countEmail (l.map g) em = countEmail l em := by
  induction l with
  | nil => rfl
  | cons hd tl ih =>
    unfold countEmail at ih ⊢
    simp only [List.map_cons, List.filter_cons, hg hd]
    by_cases h : (hd.email == em) = true
    · simp [h, ih]
    · simp [h, ih]

theorem countEmail_updateLead (l : List EmailLead) (em em2 : String)
    (f : EmailLead → EmailLead) (hf : ∀ L, (f L).email = L.email) :
    countEmail (updateLead l em f) em2 = countEmail l em2 := by
  unfold updateLead
  refine countEmail_map_email_eq l _ em2 (fun L => ?_)
  by_cases h : (L.email == em) = true
  · rw [if_pos h]; exact hf L
  · rw [if_neg h]

theorem countEmail_append (l1 l2 : List EmailLead) (em : String) :
    countEmail (l1 ++ l2) em = countEmail l1 em + countEmail l2 em := by
  unfold countEmail
  rw [List.filter_append, List.length_append]

theorem countEmail_singleton (L : EmailLead) (em : String) :
    countEmail [L] em = if L.email == em then 1 else 0 := by
  unfold countEmail
  by_cases h : (L.email == em) = true
  · rw [if_pos h]
    simp [List.filter_cons, h]
  · rw [if_neg h]
    simp [List.filter_cons, h]

theorem findLead_eq_none_of_count_zero (l : List EmailLead) (em : String)
    (h : countEmail l em = 0) : findLead l em = none := by
  unfold countEmail at h
  rw [List.length_eq_zero] at h
  unfold findLead
  rw [List.find?_eq_none]
  intro x hx hpred
  have hmem : x ∈ l.filter (fun L => L.email == em) := List.mem_filter.mpr ⟨hx, hpred⟩
  rw [h] at hmem
  simp at hmem

theorem findLead_append_right (l : List EmailLead) (L : EmailLead) (em : String)
    (h : findLead l em = none) (hL : L.email = em) :
    findLead (l ++ [L]) em = some L := by
  unfold findLead at h ⊢
  rw [List.find?_append, h]
  simp [hL]

/-! Helper lemmas about JSON field extraction. -/

theorem getStrOr_of_jget_str (fields : List (String × Json)) (k s : String)
    (h : jget fields k = some (Json.str s)) : getStrOr fields k = .ok s := by
  unfold getStrOr
  rw [h]
  by_cases hs : s = ""
  · subst hs
    simp [Json.truthy]
  · simp [Json.truthy, hs]

theorem getStrOr_of_jget_none (fields : List (String × Json)) (k : String)
    (h : jget fields k = none) : getStrOr fields k = .ok "" := by
  unfold getStrOr
  rw [h]

theorem jget_mkBody_email (e p : String) :
    jget [("email", Json.str e), ("profile", Json.str p)] "email" = some (Json.str e) := rfl

theorem jget_mkBody_profile (e p : String) :
    jget [("email", Json.str e), ("profile", Json.str p)] "profile" = some (Json.str p) := rfl

/-! The characterization of the handler on a validated email. -/

theorem submit_email_ok_char (cfg : Config) (net : Nat → AttemptResult) (st : Store)
    (fields : List (String × Json)) (rawE rawP ua ip : String) (now : Nat)
    (hf : fields ≠ [])
    (hE : getStrOr fields "email" = .ok rawE)
    (hP : getStrOr fields "profile" = .ok rawP)
    (hne : pyLower (pyStrip rawE) ≠ "")
    (hm : EMAIL_RE_match (pyLower (pyStrip rawE)) = true) :
    submit_email cfg net st (some (Json.obj fields)) ua ip now =
      ⟨Response.okTrue,
       ⟨updateLead
          (findOrCreate st (pyLower (pyStrip rawE)) (normProfile rawP) ip ua now).1.leads
          (pyLower (pyStrip rawE))
          (setSync (push_to_systemeio cfg.token net (pyLower (pyStrip rawE)) cfg.tag_id
              (normProfile rawP)).result),
        (findOrCreate st (pyLower (pyStrip rawE)) (normProfile rawP) ip ua now).1.nextId⟩,
       (push_to_systemeio cfg.token net (pyLower (pyStrip rawE)) cfg.tag_id
          (normProfile rawP)).calls⟩ := by
  have ht : (Json.obj fields).truthy = true := by
    simp only [Json.truthy, Bool.not_eq_true', List.isEmpty_eq_false_iff_exists_mem]
    rcases fields with _ | ⟨a, tl⟩
    · exact absurd rfl hf
    · exact ⟨a, List.mem_cons_self a tl⟩
  simp only [submit_email]
  rw [if_pos ht]
  simp only [hE, hP]
  rw [if_neg hne, if_pos hm]

theorem submit_email_valid (cfg : Config) (net : Nat → AttemptResult) (st : Store)
    (e p ua ip : String) (now : Nat)
    (hne : pyLower (pyStrip e) ≠ "") (hm : EMAIL_RE_match (pyLower (pyStrip e)) = true) :
    submit_email cfg net st (mkBody e p) ua ip now =
      ⟨Response.okTrue,
       ⟨updateLead
          (findOrCreate st (pyLower (pyStrip e)) (normProfile p) ip ua now).1.leads
          (pyLower (pyStrip e))
          (setSync (push_to_systemeio cfg.token net (pyLower (pyStrip e)) cfg.tag_id
              (normProfile p)).result),
        (findOrCreate st (pyLower (pyStrip e)) (normProfile p) ip ua now).1.nextId⟩,
       (push_to_systemeio cfg.token net (pyLower (pyStrip e)) cfg.tag_id
          (normProfile p)).calls⟩ :=
  submit_email_ok_char cfg net st _ e p ua ip now (by simp)
    (getStrOr_of_jget_str _ _ _ (jget_mkBody_email e p))
    (getStrOr_of_jget_str _ _ _ (jget_mkBody_profile e p)) hne hm

/-! The characterization of the handler on every non-accepting path. -/

theorem obj_truthy_ne_nil (fields : List (String × Json))
    (ht : (Json.obj fields).truthy = true) : fields ≠ [] := by
  intro h
  subst h
  simp [Json.truthy] at ht

theorem submit_email_none_body (cfg : Config) (net : Nat → AttemptResult) (st : Store)
    (ua ip : String) (now : Nat) :
    submit_email cfg net st none ua ip now = ⟨Response.badRequest "invalid_json", st, 0⟩ := rfl

theorem submit_email_falsy (cfg : Config) (net : Nat → AttemptResult) (st : Store)
    (j : Json) (ua ip : String) (now : Nat) (hj : j.truthy = false) :
    submit_email cfg net st (some j) ua ip now = ⟨Response.jsonErr "email_required", st, 0⟩ := by
  simp only [submit_email]
  rw [if_neg (by rw [hj]; exact Bool.false_ne_true)]
  rfl

theorem submit_email_nonobj (cfg : Config) (net : Nat → AttemptResult) (st : Store)
    (j : Json) (ua ip : String) (now : Nat) (ht : j.truthy = true) (ho : j.isObj = false) :
    submit_email cfg net st (some j) ua ip now = ⟨Response.internalError, st, 0⟩ := by
  cases j with
  | obj fields => simp [Json.isObj] at ho
  | null => simp [Json.truthy] at ht
  | bool b =>
    simp only [submit_email]
    rw [if_pos ht]
  | num n =>
    simp only [submit_email]
    rw [if_pos ht]
  | str s =>
    simp only [submit_email]
    rw [if_pos ht]
  | arr l =>
    simp only [submit_email]
    rw [if_pos ht]

theorem submit_email_emailError (cfg : Config) (net : Nat → AttemptResult) (st : Store)
    (fields : List (String × Json)) (ua ip : String) (now : Nat) (u : Unit)
    (ht : (Json.obj fields).truthy = true)
    (hE : getStrOr fields "email" = .error u) :
    submit_email cfg net st (some (Json.obj fields)) ua ip now =
      ⟨Response.internalError, st, 0⟩ := by
  simp only [submit_email]
  rw [if_pos ht]
  simp only [hE]

theorem submit_email_profileError (cfg : Config) (net : Nat → AttemptResult) (st : Store)
    (fields : List (String × Json)) (rawE ua ip : String) (now : Nat) (u : Unit)
    (ht : (Json.obj fields).truthy = true)
    (hE : getStrOr fields "email" = .ok rawE)
    (hP : getStrOr fields "profile" = .error u) :
    submit_email cfg net st (some (Json.obj fields)) ua ip now =
      ⟨Response.internalError, st, 0⟩ := by
  simp only [submit_email]
  rw [if_pos ht]
  simp only [hE, hP]

theorem submit_email_required_of (cfg : Config) (net : Nat → AttemptResult) (st : Store)
    (fields : List (String × Json)) (rawE rawP ua ip : String) (now : Nat)
    (ht : (Json.obj fields).truthy = true)
    (hE : getStrOr fields "email" = .ok rawE)
    (hP : getStrOr fields "profile" = .ok rawP)
    (hne : pyLower (pyStrip rawE) = "") :
    submit_email cfg net st (some (Json.obj fields)) ua ip now =
      ⟨Response.jsonErr "email_required", st, 0⟩ := by
  simp only [submit_email]
  rw [if_pos ht]
  simp only [hE, hP]
  rw [if_pos hne]

theorem submit_email_invalid_of (cfg : Config) (net : Nat → AttemptResult) (st : Store)
    (fields : List (String × Json)) (rawE rawP ua ip : String) (now : Nat)
    (ht : (Json.obj fields).truthy = true)
    (hE : getStrOr fields "email" = .ok rawE)
    (hP : getStrOr fields "profile" = .ok rawP)
    (hne : pyLower (pyStrip rawE) ≠ "")
    (hm : EMAIL_RE_match (pyLower (pyStrip rawE)) = false) :
    submit_email cfg net st (some (Json.obj fields)) ua ip now =
      ⟨Response.jsonErr "email_invalid", st, 0⟩ := by
  simp only [submit_email]
  rw [if_pos ht]
  simp only [hE, hP]
  rw [if_neg hne, if_neg (by rw [hm]; exact Bool.false_ne_true)]

/-- On every path the handler either leaves the store untouched or performs
the find-or-create followed by the sync-field update for some email. -/
theorem submit_store_shape (cfg : Config) (net : Nat → AttemptResult) (st : Store)
    (body : Option Json) (ua ip : String) (now : Nat) :
    (submit_email cfg net st body ua ip now).store = st ∨
    ∃ em prof r,
      (submit_email cfg net st body ua ip now).store =
        ⟨updateLead (findOrCreate st em prof ip ua now).1.leads em (setSync r),
         (findOrCreate st em prof ip ua now).1.nextId⟩ := by
  rcases body with _ | j
  · exact Or.inl rfl
  · by_cases ht : j.truthy = true
    · by_cases ho : j.isObj = true
      · cases j with
        | obj fields =>
          cases hE : getStrOr fields "email" with
          | error u =>
            rw [submit_email_emailError cfg net st fields ua ip now u ht hE]
            exact Or.inl rfl
          | ok rawE =>
            cases hP : getStrOr fields "profile" with
            | error u =>
              rw [submit_email_profileError cfg net st fields rawE ua ip now u ht hE hP]
              exact Or.inl rfl
            | ok rawP =>
              by_cases hne : pyLower (pyStrip rawE) = ""
              · rw [submit_email_required_of cfg net st fields rawE rawP ua ip now ht hE hP hne]
                exact Or.inl rfl
              · by_cases hm : EMAIL_RE_match (pyLower (pyStrip rawE)) = true
                · rw [submit_email_ok_char cfg net st fields rawE rawP ua ip now
                    (obj_truthy_ne_nil fields ht) hE hP hne hm]
                  exact Or.inr ⟨pyLower (pyStrip rawE), normProfile rawP,
                    (push_to_systemeio cfg.token net (pyLower (pyStrip rawE)) cfg.tag_id
                      (normProfile rawP)).result, rfl⟩
                · rw [submit_email_invalid_of cfg net st fields rawE rawP ua ip now ht hE hP hne
                    (Bool.not_eq_true _ ▸ hm)]
                  exact Or.inl rfl
        | null => simp [Json.isObj] at ho
        | bool b => simp [Json.isObj] at ho
        | num n => simp [Json.isObj] at ho
        | str s => simp [Json.isObj] at ho
        | arr l => simp [Json.isObj] at ho
      · rw [submit_email_nonobj cfg net st j ua ip now ht (Bool.not_eq_true _ ▸ ho)]
        exact Or.inl rfl
    · rw [submit_email_falsy cfg net st j ua ip now (Bool.not_eq_true _ ▸ ht)]
      exact Or.inl rfl

/-! Claim theorems. -/

/-- C1: for every syntactically valid, non-empty (after trim and lower-case)
email submitted with any profile, against any store, any CRM configuration and
any network behaviour — hence for every push outcome, Delivered, Skipped or
Failed — the handler responds {ok: true}; the push outcome can only reach the
stored sync fields, never the requester-visible response. -/
theorem c1_ok_regardless_of_crm (cfg : Config) (net : Nat → AttemptResult) (st : Store)
    (e p ua ip : String) (now : Nat)
    (hne : pyLower (pyStrip e) ≠ "") (hm : EMAIL_RE_match (pyLower (pyStrip e)) = true) :
    (submit_email cfg net st (mkBody e p) ua ip now).response = Response.okTrue := by
  rw [submit_email_valid cfg net st e p ua ip now hne hm]

theorem c1_ok_regardless_of_crm_witness :
    pyLower (pyStrip " Foo@Bar.com ") ≠ "" ∧
    EMAIL_RE_match (pyLower (pyStrip " Foo@Bar.com ")) = true ∧
    (submit_email ⟨"tok", "42"⟩ (fun _ => AttemptResult.response 500 "boom") emptyStore
        (mkBody " Foo@Bar.com " "p") "UA" "1.2.3.4" 5).response = Response.okTrue :=
  ⟨by decide, by decide,
   c1_ok_regardless_of_crm ⟨"tok", "42"⟩ (fun _ => AttemptResult.response 500 "boom") emptyStore
     " Foo@Bar.com " "p" "UA" "1.2.3.4" 5 (by decide) (by decide)⟩

/-- C3: with configuration present, push returns Delivered — ok with status
string carrying the HTTP code — exactly when some attempt receives a 2xx or
409 response, stopping at the first such response (1, 2 or 3 calls made, and
only the sleeps before that point); when all three attempts fail it returns
Failed ("error") after exactly 3 calls.  The four conjuncts are an exhaustive
case analysis over the position of the first successful response. -/
theorem c3_push_classification (token tag e : String) (net : Nat → AttemptResult)
    (p : Option String) (hTok : token ≠ "") (hTag : tag ≠ "") :
    (∀ c : Nat, ∀ t : String, net 1 = AttemptResult.response c t → crmSuccess c →
        push_to_systemeio token net e tag p = ⟨⟨true, "HTTP " ++ toString c, none⟩, 1, []⟩) ∧
    (failedAttempt (net 1) → ∀ c : Nat, ∀ t : String,
        net 2 = AttemptResult.response c t → crmSuccess c →
        push_to_systemeio token net e tag p = ⟨⟨true, "HTTP " ++ toString c, none⟩, 2, [8]⟩) ∧
    (failedAttempt (net 1) → failedAttempt (net 2) → ∀ c : Nat, ∀ t : String,
        net 3 = AttemptResult.response c t → crmSuccess c →
        push_to_systemeio token net e tag p = ⟨⟨true, "HTTP " ++ toString c, none⟩, 3, [8, 16]⟩) ∧
    (failedAttempt (net 1) → failedAttempt (net 2) → failedAttempt (net 3) →
        (push_to_systemeio token net e tag p).result.ok = false ∧
        (push_to_systemeio token net e tag p).result.status = "error" ∧
        (push_to_systemeio token net e tag p).calls = 3) :=
  ⟨fun c t h hc => push_trace_first token tag e net p hTok hTag c t h hc,
   fun h1 c t h hc => push_trace_second token tag e net p hTok hTag c t h1 h hc,
   fun h1 h2 c t h hc => push_trace_third token tag e net p hTok hTag c t h1 h2 h hc,
   fun h1 h2 h3 => by
     rw [push_trace_allfail token tag e net p hTok hTag h1 h2 h3]
     exact ⟨rfl, rfl, rfl⟩⟩

theorem c3_push_classification_witness :
    push_to_systemeio "tok" (fun _ => AttemptResult.response 409 "dup") "a@b.c" "42" none =
      ⟨⟨true, "HTTP " ++ toString 409, none⟩, 1, []⟩ :=
  (c3_push_classification "tok" "42" "a@b.c" (fun _ => AttemptResult.response 409 "dup") none
    (by decide) (by decide)).1 409 "dup" rfl (by decide)

/-- C4: the handler answers email_required exactly when the email is empty
after trimming, email_invalid exactly when the trimmed, lower-cased email is
nonempty but fails the EMAIL_RE syntax check, and on either validation failure
the store is untouched and no CRM call is made. -/
theorem c4_validation (cfg : Config) (net : Nat → AttemptResult) (st : Store)
    (e p ua ip : String) (now : Nat) :
    ((submit_email cfg net st (mkBody e p) ua ip now).response =
        Response.jsonErr "email_required" ↔ pyLower (pyStrip e) = "") ∧
    ((submit_email cfg net st (mkBody e p) ua ip now).response =
        Response.jsonErr "email_invalid" ↔
        (pyLower (pyStrip e) ≠ "" ∧ EMAIL_RE_match (pyLower (pyStrip e)) = false)) ∧
    ((pyLower (pyStrip e) = "" ∨ EMAIL_RE_match (pyLower (pyStrip e)) = false) →
        (submit_email cfg net st (mkBody e p) ua ip now).store = st ∧
        (submit_email cfg net st (mkBody e p) ua ip now).crmCalls = 0) := by
  have hE := getStrOr_of_jget_str _ _ _ (jget_mkBody_email e p)
  have hP := getStrOr_of_jget_str _ _ _ (jget_mkBody_profile e p)
  have ht : (Json.obj [("email", Json.str e), ("profile", Json.str p)]).truthy = true := by
    simp [Json.truthy]
  by_cases hne : pyLower (pyStrip e) = ""
  · have hb : submit_email cfg net st (mkBody e p) ua ip now =
        ⟨Response.jsonErr "email_required", st, 0⟩ :=
      submit_email_required_of cfg net st _ e p ua ip now ht hE hP hne
    rw [hb]
    exact ⟨⟨fun _ => hne, fun _ => rfl⟩,
      ⟨fun h => absurd h (by simp), fun hc => absurd hne hc.1⟩,
      fun _ => ⟨rfl, rfl⟩⟩
  · by_cases hm : EMAIL_RE_match (pyLower (pyStrip e)) = true
    · rw [submit_email_valid cfg net st e p ua ip now hne hm]
      refine ⟨⟨fun h => absurd h (by simp), fun h => absurd h hne⟩,
        ⟨fun h => absurd h (by simp), fun hc => absurd (hc.2 ▸ hm) Bool.false_ne_true⟩, ?_⟩
      rintro (h | h)
      · exact absurd h hne
      · exact absurd (h ▸ hm) Bool.false_ne_true
    · have hm2 : EMAIL_RE_match (pyLower (pyStrip e)) = false := Bool.not_eq_true _ ▸ hm
      have hb : submit_email cfg net st (mkBody e p) ua ip now =
          ⟨Response.jsonErr "email_invalid", st, 0⟩ :=
        submit_email_invalid_of cfg net st _ e p ua ip now ht hE hP hne hm2
      rw [hb]
      exact ⟨⟨fun h => absurd h (by simp), fun h => absurd h hne⟩,
        ⟨fun _ => ⟨hne, hm2⟩, fun _ => rfl⟩,
        fun _ => ⟨rfl, rfl⟩⟩

theorem c4_validation_witness :
    (submit_email ⟨"tok", "42"⟩ (fun _ => AttemptResult.response 201 "") emptyStore
        (mkBody "not-an-email" "p") "UA" "ip" 0).response = Response.jsonErr "email_invalid" ∧
    (submit_email ⟨"tok", "42"⟩ (fun _ => AttemptResult.response 201 "") emptyStore
        (mkBody "not-an-email" "p") "UA" "ip" 0).store = emptyStore ∧
    (submit_email ⟨"tok", "42"⟩ (fun _ => AttemptResult.response 201 "") emptyStore
        (mkBody "not-an-email" "p") "UA" "ip" 0).crmCalls = 0 := by
  have h := c4_validation ⟨"tok", "42"⟩ (fun _ => AttemptResult.response 201 "") emptyStore
    "not-an-email" "p" "UA" "ip" 0
  have h3 := h.2.2 (Or.inr (by decide))
  exact ⟨h.2.1.mpr (by decide), h3.1, h3.2⟩

/-- C7 counterexample: with every attempt failing (HTTP 500), the recorded
sleeps are 0.8 s, 1.6 s and 2.4 s (in tenths of a second: 8, 16, 24) — three
sleeps, including one after the final attempt, totalling 4.8 s — not the two
sleeps (0.8 s then 1.6 s, sum 2.4 s, claimed bound about 4 s) that the claim
states. -/
theorem c7_counterexample :
    (push_to_systemeio "tok" (fun _ => AttemptResult.response 500 "oops")
        "a@b.c" "42" none).sleeps = [8, 16, 24] ∧
    (push_to_systemeio "tok" (fun _ => AttemptResult.response 500 "oops")
        "a@b.c" "42" none).sleeps ≠ [8, 16] ∧
    ((push_to_systemeio "tok" (fun _ => AttemptResult.response 500 "oops")
        "a@b.c" "42" none).sleeps).sum = 48 := by
  decide

/-- C7 amended: in a push whose three attempts all fail, the loop sleeps after
every failed attempt including the final one: exactly three sleeps of
0.8 × attempt seconds (0.8 s, 1.6 s, 2.4 s — recorded as 8, 16, 24 tenths),
for a total added backoff latency of 4.8 s, over exactly 3 attempts. -/
theorem c7_amended_backoff (token tag e : String) (net : Nat → AttemptResult)
    (p : Option String) (hTok : token ≠ "") (hTag : tag ≠ "")
    (h1 : failedAttempt (net 1)) (h2 : failedAttempt (net 2)) (h3 : failedAttempt (net 3)) :
    (push_to_systemeio token net e tag p).sleeps = [8, 16, 24] ∧
    ((push_to_systemeio token net e tag p).sleeps).sum = 48 ∧
    (push_to_systemeio token net e tag p).calls = 3 := by
  rw [push_trace_allfail token tag e net p hTok hTag h1 h2 h3]
  exact ⟨rfl, rfl, rfl⟩

theorem c7_amended_backoff_witness :
    (push_to_systemeio "tok" (fun _ => AttemptResult.exception "conn") "a@b.c" "42" none).sleeps
        = [8, 16, 24] ∧
    ((push_to_systemeio "tok" (fun _ => AttemptResult.exception "conn") "a@b.c" "42" none).sleeps).sum
        = 48 ∧
    (push_to_systemeio "tok" (fun _ => AttemptResult.exception "conn") "a@b.c" "42" none).calls
        = 3 :=
  c7_amended_backoff "tok" "42" "a@b.c" (fun _ => AttemptResult.exception "conn") none
    (by decide) (by decide) (by decide) (by decide) (by decide)

/-- C8 counterexample: when every attempt raises a transport exception whose
message is the empty string, the detail observed on the 3rd attempt is "",
yet the returned Failed detail is the placeholder "unknown_api_error" — so
the returned detail does not equal the detail observed on the last attempt. -/
theorem c8_counterexample :
    attemptFailDetail (AttemptResult.exception "") = "" ∧
    (push_to_systemeio "tok" (fun _ => AttemptResult.exception "") "a@b.c" "42" none).result.err
        = some "unknown_api_error" ∧
    some "unknown_api_error" ≠ (some "" : Option String) := by
  decide

/-- C8 amended: when all three attempts fail, the returned Failed detail is
the detail observed on the 3rd attempt when that is nonempty, and the
placeholder "unknown_api_error" when it is empty; an HTTP-failure detail is
the status code plus the response body truncated to 500 characters, while a
transport-exception detail is the exception message stored verbatim, without
truncation. -/
theorem c8_amended_last_detail (token tag e : String) (net : Nat → AttemptResult)
    (p : Option String) (hTok : token ≠ "") (hTag : tag ≠ "")
    (h1 : failedAttempt (net 1)) (h2 : failedAttempt (net 2)) (h3 : failedAttempt (net 3)) :
    (push_to_systemeio token net e tag p).result.err
        = some (orUnknown (some (attemptFailDetail (net 3)))) ∧
    (∀ c : Nat, ∀ t : String, net 3 = AttemptResult.response c t →
        attemptFailDetail (net 3) = "HTTP " ++ toString c ++ ": " ++ pyTake t 500 ++ "...") ∧
    (∀ m : String, net 3 = AttemptResult.exception m → attemptFailDetail (net 3) = m) := by
  refine ⟨?_, ?_, ?_⟩
  · rw [push_trace_allfail token tag e net p hTok hTag h1 h2 h3]
  · intro c t h
    rw [h]
    rfl
  · intro m h
    rw [h]
    rfl

theorem findOrCreate_leads_none (st : Store) (em : String) (prof : Option String)
    (ip ua : String) (now : Nat) (hf : findLead st.leads em = none) :
    (findOrCreate st em prof ip ua now).1.leads =
      st.leads ++ [newLead st.nextId now em prof ip ua] := by
  unfold findOrCreate
  rw [hf]

theorem findOrCreate_leads_some (st : Store) (em : String) (prof : Option String)
    (ip ua : String) (now : Nat) (L : EmailLead) (hf : findLead st.leads em = some L) :
    (findOrCreate st em prof ip ua now).1.leads = st.leads := by
  unfold findOrCreate
  rw [hf]

/-- The computed profile is never the empty string: line 185 turns a
whitespace-only or missing profile into None, not "". -/
theorem normProfile_ne_empty (p : String) : normProfile p ≠ some "" := by
  unfold normProfile
  by_cases hq : pyStrip p = "" <;> simp [hq]

theorem countEmail_findOrCreate_le (st : Store) (em2 : String) (prof : Option String)
    (ip ua : String) (now : Nat) (em : String) (h : countEmail st.leads em ≤ 1) :
    countEmail (findOrCreate st em2 prof ip ua now).1.leads em ≤ 1 := by
  unfold findOrCreate
  cases hf : findLead st.leads em2 with
  | some L => exact h
  | none =>
    show countEmail (st.leads ++ [newLead st.nextId now em2 prof ip ua]) em ≤ 1
    rw [countEmail_append, countEmail_singleton]
    by_cases he : em2 = em
    · subst he
      have h0 : countEmail st.leads em2 = 0 := by
        unfold countEmail
        rw [List.length_eq_zero, List.filter_eq_nil_iff]
        unfold findLead at hf
        rw [List.find?_eq_none] at hf
        exact hf
      rw [h0]
      simp [newLead]
    · have hb : ((newLead st.nextId now em2 prof ip ua).email == em) = false := by
        simp [newLead, he]
      rw [hb]
      simpa using h

theorem countEmail_submit_le (cfg : Config) (net : Nat → AttemptResult) (st : Store)
    (body : Option Json) (ua ip : String) (now : Nat) (em : String)
    (h : countEmail st.leads em ≤ 1) :
    countEmail (submit_email cfg net st body ua ip now).store.leads em ≤ 1 := by
  rcases submit_store_shape cfg net st body ua ip now with hs | ⟨em2, prof, r, hs⟩
  · rw [hs]
    exact h
  · rw [hs]
    show countEmail (updateLead (findOrCreate st em2 prof ip ua now).1.leads em2 (setSync r)) em ≤ 1
    rw [countEmail_updateLead _ _ _ _ (setSync_email r)]
    exact countEmail_findOrCreate_le st em2 prof ip ua now em h

theorem countEmail_runSubmits_le (subs : List Submission) :
    ∀ st : Store, (∀ em, countEmail st.leads em ≤ 1) →
      ∀ em, countEmail (runSubmits st subs).leads em ≤ 1 := by
  induction subs with
  | nil => intro st h em; exact h em
  | cons sub tl ih =>
    intro st h em
    unfold runSubmits
    rw [List.foldl_cons]
    exact ih _
      (fun em2 => countEmail_submit_le sub.cfg sub.net st sub.body sub.ua sub.ip sub.now em2 (h em2))
      em

/-- C2: starting from the empty store, every sequence of submissions leaves at
most one Lead row per email (conjunct 1, which steps through the entire
sequence); and submitting a previously unseen valid email and then submitting
any raw email with the same normalized (trimmed, lower-cased) form — for
example "Foo@Bar.com" then "foo@bar.com" — leaves exactly one stored Lead
whose id, creation timestamp and email are unchanged from creation
(conjunct 2). -/
theorem c2_unique_email :
    (∀ subs : List Submission, ∀ em : String,
        countEmail (runSubmits emptyStore subs).leads em ≤ 1) ∧
    (∀ (cfg1 cfg2 : Config) (net1 net2 : Nat → AttemptResult) (st : Store)
        (e1 p1 e2 p2 ua1 ip1 ua2 ip2 : String) (now1 now2 : Nat),
      countEmail st.leads (pyLower (pyStrip e1)) = 0 →
      pyLower (pyStrip e1) ≠ "" →
      EMAIL_RE_match (pyLower (pyStrip e1)) = true →
      pyLower (pyStrip e2) = pyLower (pyStrip e1) →
      countEmail (submit_email cfg2 net2
          (submit_email cfg1 net1 st (mkBody e1 p1) ua1 ip1 now1).store
          (mkBody e2 p2) ua2 ip2 now2).store.leads (pyLower (pyStrip e1)) = 1 ∧
      ∃ L : EmailLead,
        findLead (submit_email cfg2 net2
            (submit_email cfg1 net1 st (mkBody e1 p1) ua1 ip1 now1).store
            (mkBody e2 p2) ua2 ip2 now2).store.leads (pyLower (pyStrip e1)) = some L ∧
        L.id = st.nextId ∧ L.ts_utc = now1 ∧ L.email = pyLower (pyStrip e1)) := by
  constructor
  · intro subs em
    refine countEmail_runSubmits_le subs emptyStore (fun em2 => ?_) em
    simp [emptyStore, countEmail]
  · intro cfg1 cfg2 net1 net2 st e1 p1 e2 p2 ua1 ip1 ua2 ip2 now1 now2 h0 hne hm he2
    have hfnone : findLead st.leads (pyLower (pyStrip e1)) = none :=
      findLead_eq_none_of_count_zero _ _ h0
    have hne2 : pyLower (pyStrip e2) ≠ "" := by rw [he2]; exact hne
    have hm2 : EMAIL_RE_match (pyLower (pyStrip e2)) = true := by rw [he2]; exact hm
    have hst1 : (submit_email cfg1 net1 st (mkBody e1 p1) ua1 ip1 now1).store =
        ⟨updateLead
           (st.leads ++ [newLead st.nextId now1 (pyLower (pyStrip e1)) (normProfile p1) ip1 ua1])
           (pyLower (pyStrip e1))
           (setSync (push_to_systemeio cfg1.token net1 (pyLower (pyStrip e1)) cfg1.tag_id
               (normProfile p1)).result),
         st.nextId + 1⟩ := by
      rw [submit_email_valid cfg1 net1 st e1 p1 ua1 ip1 now1 hne hm]
      unfold findOrCreate
      rw [hfnone]
    have hfind1 : findLead
        (submit_email cfg1 net1 st (mkBody e1 p1) ua1 ip1 now1).store.leads
        (pyLower (pyStrip e1)) =
        some (setSync (push_to_systemeio cfg1.token net1 (pyLower (pyStrip e1)) cfg1.tag_id
            (normProfile p1)).result
          (newLead st.nextId now1 (pyLower (pyStrip e1)) (normProfile p1) ip1 ua1)) := by
      rw [hst1]
      show findLead (updateLead _ _ _) _ = _
      rw [findLead_updateLead _ _ _ (setSync_email _)]
      rw [findLead_append_right st.leads _ _ hfnone rfl]
      rfl
    have hcount1 : countEmail
        (submit_email cfg1 net1 st (mkBody e1 p1) ua1 ip1 now1).store.leads
        (pyLower (pyStrip e1)) = 1 := by
      rw [hst1]
      show countEmail (updateLead _ _ _) _ = 1
      rw [countEmail_updateLead _ _ _ _ (setSync_email _)]
      rw [countEmail_append, countEmail_singleton, h0]
      simp [newLead]
    have hst2 : (submit_email cfg2 net2
        (submit_email cfg1 net1 st (mkBody e1 p1) ua1 ip1 now1).store
        (mkBody e2 p2) ua2 ip2 now2).store =
        ⟨updateLead (submit_email cfg1 net1 st (mkBody e1 p1) ua1 ip1 now1).store.leads
           (pyLower (pyStrip e1))
           (setSync (push_to_systemeio cfg2.token net2 (pyLower (pyStrip e1)) cfg2.tag_id
               (normProfile p2)).result),
         (submit_email cfg1 net1 st (mkBody e1 p1) ua1 ip1 now1).store.nextId⟩ := by
      rw [submit_email_valid cfg2 net2 _ e2 p2 ua2 ip2 now2 hne2 hm2]
      rw [he2]
      unfold findOrCreate
      rw [hfind1]
    constructor
    · rw [hst2]
      show countEmail (updateLead _ _ _) _ = 1
      rw [countEmail_updateLead _ _ _ _ (setSync_email _)]
      exact hcount1
    · refine ⟨setSync (push_to_systemeio cfg2.token net2 (pyLower (pyStrip e1)) cfg2.tag_id
          (normProfile p2)).result
        (setSync (push_to_systemeio cfg1.token net1 (pyLower (pyStrip e1)) cfg1.tag_id
            (normProfile p1)).result
          (newLead st.nextId now1 (pyLower (pyStrip e1)) (normProfile p1) ip1 ua1)), ?_, rfl, rfl, rfl⟩
      rw [hst2]
      show findLead (updateLead _ _ _) _ = _
      rw [findLead_updateLead _ _ _ (setSync_email _)]
      rw [hfind1]
      rfl

theorem c2_unique_email_witness :
    countEmail (submit_email ⟨"tok", "42"⟩ (fun _ => AttemptResult.response 201 "")
        (submit_email ⟨"tok", "42"⟩ (fun _ => AttemptResult.response 201 "")
          emptyStore (mkBody "Foo@Bar.com" "p1") "UA1" "ip1" 10).store
        (mkBody "foo@bar.com" "p2") "UA2" "ip2" 20).store.leads
      (pyLower (pyStrip "Foo@Bar.com")) = 1 ∧
    ∃ L : EmailLead,
      findLead (submit_email ⟨"tok", "42"⟩ (fun _ => AttemptResult.response 201 "")
          (submit_email ⟨"tok", "42"⟩ (fun _ => AttemptResult.response 201 "")
            emptyStore (mkBody "Foo@Bar.com" "p1") "UA1" "ip1" 10).store
          (mkBody "foo@bar.com" "p2") "UA2" "ip2" 20).store.leads
        (pyLower (pyStrip "Foo@Bar.com")) = some L ∧
      L.id = emptyStore.nextId ∧ L.ts_utc = 10 ∧ L.email = pyLower (pyStrip "Foo@Bar.com") :=
  c2_unique_email.2 ⟨"tok", "42"⟩ ⟨"tok", "42"⟩
    (fun _ => AttemptResult.response 201 "") (fun _ => AttemptResult.response 201 "")
    emptyStore "Foo@Bar.com" "p1" "foo@bar.com" "p2" "UA1" "ip1" "UA2" "ip2" 10 20
    (by decide) (by decide) (by decide) (by decide)

theorem c8_amended_last_detail_witness :
    (push_to_systemeio "tok" (fun _ => AttemptResult.exception "boom") "a@b.c" "42" none).result.err
        = some "boom" := by
  have h := c8_amended_last_detail "tok" "42" "a@b.c" (fun _ => AttemptResult.exception "boom")
    none (by decide) (by decide) (by decide) (by decide) (by decide)
  rw [h.1]
  decide

/-- C5: after submit persists the push outcome, the stored row's sync columns
are exactly the tuple returned by push (pushed_to_systemeio = ok,
systemeio_status = status, systemeio_error = err); a Delivered push means
ok = true with the status string carrying the HTTP response code and no error
(the spec's syncStatus=succeeded, detail = response code); a Skipped push
(missing token or tag) is stored with ok = false (syncStatus=failed), status
"skipped" and the skip reason, with zero CRM network calls made; an all-fail
push is stored with ok = false, status "error" and the last attempt's detail. -/
theorem c5_sync_persistence (cfg : Config) (net : Nat → AttemptResult) (st : Store)
    (e p ua ip : String) (now : Nat)
    (hne : pyLower (pyStrip e) ≠ "") (hm : EMAIL_RE_match (pyLower (pyStrip e)) = true) :
    (∃ L : EmailLead,
      findLead (submit_email cfg net st (mkBody e p) ua ip now).store.leads
          (pyLower (pyStrip e)) = some L ∧
      L.pushed_to_systemeio = (push_to_systemeio cfg.token net (pyLower (pyStrip e))
          cfg.tag_id (normProfile p)).result.ok ∧
      L.systemeio_status = some (push_to_systemeio cfg.token net (pyLower (pyStrip e))
          cfg.tag_id (normProfile p)).result.status ∧
      L.systemeio_error = (push_to_systemeio cfg.token net (pyLower (pyStrip e))
          cfg.tag_id (normProfile p)).result.err) ∧
    ((push_to_systemeio cfg.token net (pyLower (pyStrip e))
          cfg.tag_id (normProfile p)).result.ok = true →
      ∃ c : Nat,
        (push_to_systemeio cfg.token net (pyLower (pyStrip e))
            cfg.tag_id (normProfile p)).result.status = "HTTP " ++ toString c ∧
        (push_to_systemeio cfg.token net (pyLower (pyStrip e))
            cfg.tag_id (normProfile p)).result.err = none) ∧
    (cfg.token = "" ∨ cfg.tag_id = "" →
      push_to_systemeio cfg.token net (pyLower (pyStrip e)) cfg.tag_id (normProfile p) =
        ⟨⟨false, "skipped", some "SYSTEMEIO_TOKEN/TAG_ID manquants"⟩, 0, []⟩ ∧
      (submit_email cfg net st (mkBody e p) ua ip now).crmCalls = 0) ∧
    (cfg.token ≠ "" → cfg.tag_id ≠ "" →
      failedAttempt (net 1) → failedAttempt (net 2) → failedAttempt (net 3) →
      (push_to_systemeio cfg.token net (pyLower (pyStrip e))
          cfg.tag_id (normProfile p)).result =
        ⟨false, "error", some (orUnknown (some (attemptFailDetail (net 3))))⟩) := by
  have hv := submit_email_valid cfg net st e p ua ip now hne hm
  refine ⟨?_, ?_, ?_, ?_⟩
  · rw [hv]
    show ∃ L, findLead (updateLead
        (findOrCreate st (pyLower (pyStrip e)) (normProfile p) ip ua now).1.leads
        (pyLower (pyStrip e))
        (setSync (push_to_systemeio cfg.token net (pyLower (pyStrip e)) cfg.tag_id
            (normProfile p)).result)) (pyLower (pyStrip e)) = some L ∧ _
    rw [findLead_updateLead _ _ _ (setSync_email _)]
    cases hf : findLead st.leads (pyLower (pyStrip e)) with
    | some L0 =>
      rw [findOrCreate_leads_some st _ _ _ _ _ L0 hf, hf]
      exact ⟨setSync _ L0, rfl, rfl, rfl, rfl⟩
    | none =>
      rw [findOrCreate_leads_none st _ _ _ _ _ hf]
      rw [findLead_append_right st.leads _ _ hf rfl]
      exact ⟨setSync _ _, rfl, rfl, rfl, rfl⟩
  · intro h
    exact push_ok_shape cfg.token cfg.tag_id (pyLower (pyStrip e)) net (normProfile p) h
  · intro h
    refine ⟨push_skippedEq cfg.token cfg.tag_id (pyLower (pyStrip e)) net (normProfile p) h, ?_⟩
    rw [hv]
    show (push_to_systemeio cfg.token net (pyLower (pyStrip e)) cfg.tag_id
        (normProfile p)).calls = 0
    rw [push_skippedEq cfg.token cfg.tag_id (pyLower (pyStrip e)) net (normProfile p) h]
  · intro hTok hTag h1 h2 h3
    rw [push_trace_allfail cfg.token cfg.tag_id (pyLower (pyStrip e)) net (normProfile p)
      hTok hTag h1 h2 h3]

theorem c5_sync_persistence_witness :
    push_to_systemeio "" (fun _ => AttemptResult.response 201 "") (pyLower (pyStrip "a@b.c"))
        "" (normProfile "p") =
      ⟨⟨false, "skipped", some "SYSTEMEIO_TOKEN/TAG_ID manquants"⟩, 0, []⟩ ∧
    (submit_email ⟨"", ""⟩ (fun _ => AttemptResult.response 201 "") emptyStore
        (mkBody "a@b.c" "p") "UA" "ip" 0).crmCalls = 0 :=
  (c5_sync_persistence ⟨"", ""⟩ (fun _ => AttemptResult.response 201 "") emptyStore
    "a@b.c" "p" "UA" "ip" 0 (by decide) (by decide)).2.2.1 (Or.inl rfl)

/-- C6 counterexample: submitting a@b.c with profile "P1" from ip1/UA1 and
then resubmitting it with profile "P2" from ip2/UA2 leaves the stored row
still holding "P1", "ip1", "UA1": the second submission's profile, sourceIp
and userAgent do not overwrite the first's, contradicting the claim that
these mutable fields are refreshed. -/
theorem c6_counterexample :
    (findLead (submit_email ⟨"", ""⟩ (fun _ => AttemptResult.exception "x")
        (submit_email ⟨"", ""⟩ (fun _ => AttemptResult.exception "x") emptyStore
          (mkBody "a@b.c" "P1") "UA1" "ip1" 10).store
        (mkBody "a@b.c" "P2") "UA2" "ip2" 20).store.leads "a@b.c").map
      (fun L => (L.profile, L.source_ip, L.user_agent))
      = some (some "P1", "ip1", "UA1") ∧
    ((some "P1", "ip1", "UA1") : Option String × String × String) ≠
      (some "P2", "ip2", "UA2") := by
  decide

/-- C6 amended: on a later submission of an email whose Lead already exists,
the existing row is reused — no new row is created (the table length is
unchanged) — and only the sync fields (pushed_to_systemeio, systemeio_status,
systemeio_error) are refreshed with the second submission's push outcome,
while profile, source_ip and user_agent keep the values the row already had
(setSync writes nothing else). -/
theorem c6_amended_reuse_without_refresh (cfg : Config) (net : Nat → AttemptResult)
    (st : Store) (e p ua ip : String) (now : Nat) (L : EmailLead)
    (hne : pyLower (pyStrip e) ≠ "") (hm : EMAIL_RE_match (pyLower (pyStrip e)) = true)
    (hL : findLead st.leads (pyLower (pyStrip e)) = some L) :
    (submit_email cfg net st (mkBody e p) ua ip now).store.leads.length = st.leads.length ∧
    findLead (submit_email cfg net st (mkBody e p) ua ip now).store.leads
        (pyLower (pyStrip e)) =
      some (setSync (push_to_systemeio cfg.token net (pyLower (pyStrip e)) cfg.tag_id
          (normProfile p)).result L) := by
  have hv := submit_email_valid cfg net st e p ua ip now hne hm
  constructor
  · rw [hv]
    show (updateLead
        (findOrCreate st (pyLower (pyStrip e)) (normProfile p) ip ua now).1.leads
        (pyLower (pyStrip e))
        (setSync (push_to_systemeio cfg.token net (pyLower (pyStrip e)) cfg.tag_id
            (normProfile p)).result)).length = st.leads.length
    rw [findOrCreate_leads_some st _ _ _ _ _ L hL]
    unfold updateLead
    rw [List.length_map]
  · rw [hv]
    show findLead (updateLead
        (findOrCreate st (pyLower (pyStrip e)) (normProfile p) ip ua now).1.leads
        (pyLower (pyStrip e))
        (setSync (push_to_systemeio cfg.token net (pyLower (pyStrip e)) cfg.tag_id
            (normProfile p)).result)) (pyLower (pyStrip e)) = _
    rw [findOrCreate_leads_some st _ _ _ _ _ L hL]
    rw [findLead_updateLead _ _ _ (setSync_email _), hL]
    rfl

theorem c6_amended_reuse_without_refresh_witness :
    (submit_email ⟨"", ""⟩ (fun _ => AttemptResult.exception "x")
        ⟨[newLead 1 5 "a@b.c" (some "P1") "ip1" "UA1"], 2⟩
        (mkBody "a@b.c" "P2") "UA2" "ip2" 20).store.leads.length =
      (⟨[newLead 1 5 "a@b.c" (some "P1") "ip1" "UA1"], 2⟩ : Store).leads.length ∧
    findLead (submit_email ⟨"", ""⟩ (fun _ => AttemptResult.exception "x")
        ⟨[newLead 1 5 "a@b.c" (some "P1") "ip1" "UA1"], 2⟩
        (mkBody "a@b.c" "P2") "UA2" "ip2" 20).store.leads (pyLower (pyStrip "a@b.c")) =
      some (setSync (push_to_systemeio "" (fun _ => AttemptResult.exception "x")
          (pyLower (pyStrip "a@b.c")) "" (normProfile "P2")).result
        (newLead 1 5 "a@b.c" (some "P1") "ip1" "UA1")) :=
  c6_amended_reuse_without_refresh ⟨"", ""⟩ (fun _ => AttemptResult.exception "x")
    ⟨[newLead 1 5 "a@b.c" (some "P1") "ip1" "UA1"], 2⟩ "a@b.c" "P2" "UA2" "ip2" 20
    (newLead 1 5 "a@b.c" (some "P1") "ip1" "UA1") (by decide) (by decide) (by decide)

/-- C9 counterexample: the body 5 is parseable JSON, non-object and truthy, so
`data.get` raises AttributeError and the handler ends in an uncaught exception
(HTTP 500) — not in the email_required validation failure the claim expects
for every parseable non-object body. -/
theorem c9_counterexample :
    (submit_email ⟨"", ""⟩ (fun _ => AttemptResult.exception "x") emptyStore
        (some (Json.num 5)) "-" "-" 0).response = Response.internalError ∧
    Response.internalError ≠ Response.jsonErr "email_required" := by
  decide

/-- C9 amended: an unparseable body aborts with 400 invalid_json before any
validation, storage access or CRM call (store unchanged, zero CRM calls); a
parseable falsy body (null, false, 0, "", [], {}) is replaced by the empty
object and falls through to the email_required failure; but a parseable
truthy non-object body (a non-zero number, non-empty string or array, true)
raises AttributeError on data.get and ends in an internal error, not in
email_required. -/
theorem c9_amended_body_handling :
    (∀ (cfg : Config) (net : Nat → AttemptResult) (st : Store) (ua ip : String) (now : Nat),
        submit_email cfg net st none ua ip now =
          ⟨Response.badRequest "invalid_json", st, 0⟩) ∧
    (∀ (cfg : Config) (net : Nat → AttemptResult) (st : Store) (j : Json)
        (ua ip : String) (now : Nat), j.truthy = false →
        submit_email cfg net st (some j) ua ip now =
          ⟨Response.jsonErr "email_required", st, 0⟩) ∧
    (∀ (cfg : Config) (net : Nat → AttemptResult) (st : Store) (j : Json)
        (ua ip : String) (now : Nat), j.truthy = true → j.isObj = false →
        submit_email cfg net st (some j) ua ip now =
          ⟨Response.internalError, st, 0⟩) :=
  ⟨fun cfg net st ua ip now => submit_email_none_body cfg net st ua ip now,
   fun cfg net st j ua ip now hj => submit_email_falsy cfg net st j ua ip now hj,
   fun cfg net st j ua ip now ht ho => submit_email_nonobj cfg net st j ua ip now ht ho⟩

theorem c9_amended_body_handling_witness :
    submit_email ⟨"", ""⟩ (fun _ => AttemptResult.exception "x") emptyStore
        (some Json.null) "-" "-" 0 = ⟨Response.jsonErr "email_required", emptyStore, 0⟩ ∧
    submit_email ⟨"", ""⟩ (fun _ => AttemptResult.exception "x") emptyStore
        (some (Json.str "hello")) "-" "-" 0 = ⟨Response.internalError, emptyStore, 0⟩ :=
  ⟨c9_amended_body_handling.2.1 ⟨"", ""⟩ (fun _ => AttemptResult.exception "x") emptyStore
     Json.null "-" "-" 0 (by decide),
   c9_amended_body_handling.2.2 ⟨"", ""⟩ (fun _ => AttemptResult.exception "x") emptyStore
     (Json.str "hello") "-" "-" 0 (by decide) (by decide)⟩

/-- C10 counterexample: "beta" is already trimmed and non-empty, yet after
resubmitting x@y.z with profile "beta" the stored profile is still "alpha"
from the first submission — the claim's "for every submission" fails on
re-submissions, whose profile is not written. -/
theorem c10_counterexample :
    pyStrip "beta" = "beta" ∧ ("beta" : String) ≠ "" ∧
    (findLead (submit_email ⟨"", ""⟩ (fun _ => AttemptResult.exception "x")
        (submit_email ⟨"", ""⟩ (fun _ => AttemptResult.exception "x") emptyStore
          (mkBody "x@y.z" "alpha") "-" "-" 1).store
        (mkBody "x@y.z" "beta") "-" "-" 2).store.leads "x@y.z").map (fun L => L.profile)
      = some (some "alpha") ∧
    (some (some "alpha") : Option (Option String)) ≠ some (some "beta") := by
  decide

/-- C10 amended: on the submission that creates the Lead, the stored profile
is the trimmed raw profile when that is non-empty and None when it is empty or
whitespace-only; on a re-submission of an existing email the stored profile
is left unchanged; and in every case an empty-string profile is never stored
(the computed profile is never Some "", and submit preserves that invariant
across the whole table). -/
theorem c10_amended_profile (cfg : Config) (net : Nat → AttemptResult) (st : Store)
    (e p ua ip : String) (now : Nat)
    (hne : pyLower (pyStrip e) ≠ "") (hm : EMAIL_RE_match (pyLower (pyStrip e)) = true) :
    (findLead st.leads (pyLower (pyStrip e)) = none →
      (findLead (submit_email cfg net st (mkBody e p) ua ip now).store.leads
          (pyLower (pyStrip e))).map (fun L => L.profile) = some (normProfile p)) ∧
    (∀ L0 : EmailLead, findLead st.leads (pyLower (pyStrip e)) = some L0 →
      (findLead (submit_email cfg net st (mkBody e p) ua ip now).store.leads
          (pyLower (pyStrip e))).map (fun L => L.profile) = some L0.profile) ∧
    normProfile p ≠ some "" ∧
    ((∀ L0 ∈ st.leads, L0.profile ≠ some "") →
      ∀ L0 ∈ (submit_email cfg net st (mkBody e p) ua ip now).store.leads,
        L0.profile ≠ some "") := by
  have hv := submit_email_valid cfg net st e p ua ip now hne hm
  refine ⟨?_, ?_, normProfile_ne_empty p, ?_⟩
  · intro hf
    rw [hv]
    show (findLead (updateLead
        (findOrCreate st (pyLower (pyStrip e)) (normProfile p) ip ua now).1.leads
        (pyLower (pyStrip e))
        (setSync (push_to_systemeio cfg.token net (pyLower (pyStrip e)) cfg.tag_id
            (normProfile p)).result)) (pyLower (pyStrip e))).map (fun L => L.profile) = _
    rw [findLead_updateLead _ _ _ (setSync_email _)]
    rw [findOrCreate_leads_none st _ _ _ _ _ hf]
    rw [findLead_append_right st.leads _ _ hf rfl]
    rfl
  · intro L0 hf
    rw [hv]
    show (findLead (updateLead
        (findOrCreate st (pyLower (pyStrip e)) (normProfile p) ip ua now).1.leads
        (pyLower (pyStrip e))
        (setSync (push_to_systemeio cfg.token net (pyLower (pyStrip e)) cfg.tag_id
            (normProfile p)).result)) (pyLower (pyStrip e))).map (fun L => L.profile) = _
    rw [findLead_updateLead _ _ _ (setSync_email _)]
    rw [findOrCreate_leads_some st _ _ _ _ _ L0 hf, hf]
    rfl
  · intro hinv L0 hmem
    rw [hv] at hmem
    have hmem2 : L0 ∈ updateLead
        (findOrCreate st (pyLower (pyStrip e)) (normProfile p) ip ua now).1.leads
        (pyLower (pyStrip e))
        (setSync (push_to_systemeio cfg.token net (pyLower (pyStrip e)) cfg.tag_id
            (normProfile p)).result) := hmem
    unfold updateLead at hmem2
    rw [List.mem_map] at hmem2
    rcases hmem2 with ⟨L1, hL1, heq⟩
    have hprof : L0.profile = L1.profile := by
      by_cases hb : (L1.email == pyLower (pyStrip e)) = true
      · rw [← heq, if_pos hb]
        rfl
      · rw [← heq, if_neg hb]
    rw [hprof]
    cases hf : findLead st.leads (pyLower (pyStrip e)) with
    | some L2 =>
      rw [findOrCreate_leads_some st _ _ _ _ _ L2 hf] at hL1
      exact hinv L1 hL1
    | none =>
      rw [findOrCreate_leads_none st _ _ _ _ _ hf] at hL1
      rw [List.mem_append] at hL1
      rcases hL1 with h | h
      · exact hinv L1 h
      · rw [List.mem_singleton] at h
        subst h
        exact normProfile_ne_empty p

theorem c10_amended_profile_witness :
    (findLead (submit_email ⟨"", ""⟩ (fun _ => AttemptResult.exception "x") emptyStore
        (mkBody "x@y.z" "  alpha  ") "-" "-" 1).store.leads
      (pyLower (pyStrip "x@y.z"))).map (fun L => L.profile) =
      some (normProfile "  alpha  ") :=
  (c10_amended_profile ⟨"", ""⟩ (fun _ => AttemptResult.exception "x") emptyStore
    "x@y.z" "  alpha  " "-" "-" 1 (by decide) (by decide)).1 (by decide)

end QuizBot
